import Mathlib

/-!
Shallow embedding of the anesthetic gas-sensor frame-parsing library
(`gas_sensor.c`, `gas_sensor.h`).  The repository carries two
implementation variants of the API in `gas_sensor.c`:

* variant `V1` (the offline, parse-only implementation, first part of the
  file): slow-data payload at frame offset 13, waveform decoded through
  `parse_concentration_2byte` (0xFFFF sentinel), `verify_checksum` also
  checks the sync bytes;
* variant `V2` (the serial implementation with the handle and
  `gas_sensor_read_frame`, second part of the file): slow-data payload at
  frame offset 14, waveform decoded as `raw / 100.0` with no sentinel
  check, `verify_checksum` checks only the checksum byte.

C byte buffers are modelled as `List Nat` with every read truncated to a
byte by `byteAt` (the `uint8_t` type of the C pointers); `float` results
are modelled exactly in `ℚ` (all decoded values are of the shape
`raw / 10`, `raw / 100` or the distinguished sentinel `-1`, and these are
pairwise distinguishable, so equality facts transfer).  Nullable output
pointers are modelled as `Option` of the pointed-to record: the function
returns the post-call contents.  The serial read primitive, the
caller-side copy of the aggregate and the consumer callback are external
collaborators; `gas_sensor_read_frame` is modelled from the point where
the freshly read chunk (at most 128 bytes, the size of `temp_buffer`) is
appended to the accumulation buffer.
-/

namespace GasSensor

def GAS_SENSOR_OK : Int := 0

def GAS_SENSOR_ERR_INVALID_FRAME : Int := -1

def GAS_SENSOR_ERR_CHECKSUM : Int := -2

def GAS_SENSOR_ERR_SERIAL_READ : Int := -4

def GAS_SENSOR_ERR_NULL_PARAM : Int := -7

def GAS_SENSOR_FRAME_SIZE : Nat := 21

def GAS_SENSOR_FLAG1 : Nat := 0xAA

def GAS_SENSOR_FLAG2 : Nat := 0x55

def GAS_SENSOR_FRAME_ID_MAX : Nat := 10

def GAS_SENSOR_NO_DATA : Nat := 0xFF

def GAS_SENSOR_CONC_INVALID : ℚ := -1

/-- Read byte `i` of a C `uint8_t` buffer: out-of-range reads to this model
do not occur on the paths we verify, and every stored value is a byte. -/
def byteAt (b : List Nat) (i : Nat) : Nat := b.getD i 0 % 256

structure gas_sensor_waveform_t where
  co2 : ℚ
  n2o : ℚ
  aa1 : ℚ
  aa2 : ℚ
  o2 : ℚ
deriving DecidableEq, Repr

structure gas_sensor_status_t where
  breath_detected : Bool
  apnea : Bool
  o2_low : Bool
  o2_replace : Bool
  check_adapter : Bool
  accuracy_out_of_range : Bool
  sensor_error : Bool
  o2_calibration_required : Bool
deriving DecidableEq, Repr

structure gas_sensor_insp_vals_t where
  co2 : ℚ
  n2o : ℚ
  aa1 : ℚ
  aa2 : ℚ
  o2 : ℚ
deriving DecidableEq, Repr

structure gas_sensor_exp_vals_t where
  co2 : ℚ
  n2o : ℚ
  aa1 : ℚ
  aa2 : ℚ
  o2 : ℚ
deriving DecidableEq, Repr

structure gas_sensor_mom_vals_t where
  co2 : ℚ
  n2o : ℚ
  aa1 : ℚ
  aa2 : ℚ
  o2 : ℚ
deriving DecidableEq, Repr

structure gas_sensor_gen_vals_t where
  resp_rate : Nat
  time_since_breath : Nat
  primary_agent : Nat
  secondary_agent : Nat
  atm_pressure : ℚ
deriving DecidableEq, Repr

structure gas_sensor_error_reg_t where
  sw_error : Bool
  hw_error : Bool
  motor_fail : Bool
  uncalibrated : Bool
deriving DecidableEq, Repr

structure gas_sensor_adapter_reg_t where
  replace_adapter : Bool
  no_adapter : Bool
  o2_clogged : Bool
deriving DecidableEq, Repr

structure gas_sensor_data_valid_reg_t where
  co2_out_of_range : Bool
  n2o_out_of_range : Bool
  agent_out_of_range : Bool
  o2_out_of_range : Bool
  temp_out_of_range : Bool
  pressure_out_of_range : Bool
  zero_calibration_required : Bool
deriving DecidableEq, Repr

structure gas_sensor_sensor_regs_t where
  mode : Nat
  error : gas_sensor_error_reg_t
  adapter : gas_sensor_adapter_reg_t
  data_valid : gas_sensor_data_valid_reg_t
deriving DecidableEq, Repr

structure gas_sensor_config_data_t where
  o2_fitted : Bool
  co2_fitted : Bool
  n2o_fitted : Bool
  halothane_fitted : Bool
  enflurane_fitted : Bool
  isoflurane_fitted : Bool
  sevoflurane_fitted : Bool
  desflurane_fitted : Bool
  hw_revision : Nat
  sw_revision : Nat
  id_config : Bool
  comm_protocol_rev : Nat
deriving DecidableEq, Repr

structure gas_sensor_service_status_t where
  zero_disabled : Bool
  zero_in_progress : Bool
  span_calibration_error : Bool
  span_calibration_in_progress : Bool
deriving DecidableEq, Repr

structure gas_sensor_service_data_t where
  serial_number : Nat
  status : gas_sensor_service_status_t
deriving DecidableEq, Repr

structure gas_sensor_slow_data_t where
  last_frame_id : Nat
  insp_vals : gas_sensor_insp_vals_t
  exp_vals : gas_sensor_exp_vals_t
  mom_vals : gas_sensor_mom_vals_t
  gen_vals : gas_sensor_gen_vals_t
  sensor_regs : gas_sensor_sensor_regs_t
  config_data : gas_sensor_config_data_t
  service_data : gas_sensor_service_data_t
deriving DecidableEq, Repr

/-- Result of `gas_sensor_parse_frame`: the returned error code together
with the post-call contents of the three nullable output pointers. -/
structure ParseResult where
  res : Int
  slow : Option gas_sensor_slow_data_t
  wf : Option gas_sensor_waveform_t
  st : Option gas_sensor_status_t
deriving DecidableEq, Repr

/-- Both variants compute the same checksum: sum bytes 2..19 in a
`uint16_t` accumulator, then `(~sum + 1) & 0xFF`, i.e. the two's
complement low byte `(65536 - sum) % 256`. -/
def calculate_checksum (frame_data : List Nat) : Nat :=
  let sum := (List.range 18).foldl (fun s i => (s + byteAt frame_data (i + 2)) % 65536) 0
  (65536 - sum) % 256

/-- Big-endian 16-bit read at offset `i` (the C helper receives the
pointer `&data[i]`). -/
def parse_uint16_be (data : List Nat) (i : Nat) : Nat :=
  byteAt data i * 256 + byteAt data (i + 1)

namespace V1

/-- Variant V1 single-byte concentration: `0xFF` sentinel, else
`raw / 10.0f` (percentage times ten on the wire). -/
def parse_concentration (raw_value : Nat) : ℚ :=
  if raw_value = GAS_SENSOR_NO_DATA then GAS_SENSOR_CONC_INVALID
  else (raw_value : ℚ) / 10

/-- Variant V1 two-byte concentration: `0xFFFF` sentinel, else
`raw / 100.0f`. -/
def parse_concentration_2byte (raw_value : Nat) : ℚ :=
  if raw_value = 0xFFFF then GAS_SENSOR_CONC_INVALID
  else (raw_value : ℚ) / 100

/-- Frame ID 0x00 payload decode; `base` is the offset of the slow-data
pointer the C code passes (`&frame_data[13]` in V1). -/
def parse_insp_vals (f : List Nat) (base : Nat) : gas_sensor_insp_vals_t where
  co2 := parse_concentration (byteAt f base)
  n2o := parse_concentration (byteAt f (base + 1))
  aa1 := parse_concentration (byteAt f (base + 2))
  aa2 := parse_concentration (byteAt f (base + 3))
  o2 := parse_concentration (byteAt f (base + 4))

/-- Frame ID 0x01 payload decode. -/
def parse_exp_vals (f : List Nat) (base : Nat) : gas_sensor_exp_vals_t where
  co2 := parse_concentration (byteAt f base)
  n2o := parse_concentration (byteAt f (base + 1))
  aa1 := parse_concentration (byteAt f (base + 2))
  aa2 := parse_concentration (byteAt f (base + 3))
  o2 := parse_concentration (byteAt f (base + 4))

/-- Frame ID 0x02 payload decode. -/
def parse_mom_vals (f : List Nat) (base : Nat) : gas_sensor_mom_vals_t where
  co2 := parse_concentration (byteAt f base)
  n2o := parse_concentration (byteAt f (base + 1))
  aa1 := parse_concentration (byteAt f (base + 2))
  aa2 := parse_concentration (byteAt f (base + 3))
  o2 := parse_concentration (byteAt f (base + 4))

/-- Frame ID 0x03 payload decode. -/
def parse_gen_vals (f : List Nat) (base : Nat) : gas_sensor_gen_vals_t where
  resp_rate := byteAt f base
  time_since_breath := byteAt f (base + 1)
  primary_agent := byteAt f (base + 2)
  secondary_agent := byteAt f (base + 3)
  atm_pressure :=
    let pressure_raw := parse_uint16_be f (base + 4)
    if pressure_raw = 0xFFFF then GAS_SENSOR_CONC_INVALID
    else (pressure_raw : ℚ) / 100

/-- Frame ID 0x04 payload decode. -/
def parse_sensor_regs (f : List Nat) (base : Nat) : gas_sensor_sensor_regs_t where
  mode := byteAt f base
  error :=
    { sw_error := byteAt f (base + 1) &&& 0x01 != 0
      hw_error := byteAt f (base + 1) &&& 0x02 != 0
      motor_fail := byteAt f (base + 1) &&& 0x04 != 0
      uncalibrated := byteAt f (base + 1) &&& 0x08 != 0 }
  adapter :=
    { replace_adapter := byteAt f (base + 2) &&& 0x01 != 0
      no_adapter := byteAt f (base + 2) &&& 0x02 != 0
      o2_clogged := byteAt f (base + 2) &&& 0x04 != 0 }
  data_valid :=
    { co2_out_of_range := byteAt f (base + 3) &&& 0x01 != 0
      n2o_out_of_range := byteAt f (base + 3) &&& 0x02 != 0
      agent_out_of_range := byteAt f (base + 3) &&& 0x04 != 0
      o2_out_of_range := byteAt f (base + 3) &&& 0x08 != 0
      temp_out_of_range := byteAt f (base + 3) &&& 0x10 != 0
      pressure_out_of_range := byteAt f (base + 3) &&& 0x20 != 0
      zero_calibration_required := byteAt f (base + 3) &&& 0x40 != 0 }

/-- Frame ID 0x05 payload decode. -/
def parse_config_data (f : List Nat) (base : Nat) : gas_sensor_config_data_t where
  o2_fitted := byteAt f base &&& 0x01 != 0
  co2_fitted := byteAt f base &&& 0x02 != 0
  n2o_fitted := byteAt f base &&& 0x04 != 0
  halothane_fitted := byteAt f base &&& 0x08 != 0
  enflurane_fitted := byteAt f base &&& 0x10 != 0
  isoflurane_fitted := byteAt f base &&& 0x20 != 0
  sevoflurane_fitted := byteAt f base &&& 0x40 != 0
  desflurane_fitted := byteAt f base &&& 0x80 != 0
  hw_revision := parse_uint16_be f (base + 2)
  sw_revision := parse_uint16_be f (base + 4)
  id_config := false
  comm_protocol_rev := 0

/-- Frame ID 0x06 payload decode. -/
def parse_service_data (f : List Nat) (base : Nat) : gas_sensor_service_data_t where
  serial_number := parse_uint16_be f base
  status :=
    { zero_disabled := byteAt f (base + 2) &&& 0x01 != 0
      zero_in_progress := byteAt f (base + 2) &&& 0x02 != 0
      span_calibration_error := byteAt f (base + 2) &&& 0x04 != 0
      span_calibration_in_progress := byteAt f (base + 2) &&& 0x08 != 0 }

/-- V1 `gas_sensor_verify_checksum`: rejects a NULL pointer, a frame
without the sync bytes, and a checksum mismatch. -/
def gas_sensor_verify_checksum (frame_data : Option (List Nat)) : Bool :=
  match frame_data with
  | none => false
  | some f =>
    if ¬(byteAt f 0 = GAS_SENSOR_FLAG1 ∧ byteAt f 1 = GAS_SENSOR_FLAG2) then false
    else calculate_checksum f = byteAt f 20

/-- Status byte (byte 3) decode, shared by both variants. -/
def decode_status (status_byte : Nat) : gas_sensor_status_t where
  breath_detected := status_byte &&& 0x01 != 0
  apnea := status_byte &&& 0x02 != 0
  o2_low := status_byte &&& 0x04 != 0
  o2_replace := status_byte &&& 0x08 != 0
  check_adapter := status_byte &&& 0x10 != 0
  accuracy_out_of_range := status_byte &&& 0x20 != 0
  sensor_error := status_byte &&& 0x40 != 0
  o2_calibration_required := status_byte &&& 0x80 != 0

/-- V1 `gas_sensor_parse_frame`.  The `switch` on the frame id is
modelled as the equivalent chain of equality tests; the slow-data
payload pointer is `&frame_data[13]`. -/
def gas_sensor_parse_frame (frame_data : Option (List Nat))
    (slow : Option gas_sensor_slow_data_t) (wf : Option gas_sensor_waveform_t)
    (st : Option gas_sensor_status_t) : ParseResult :=
  match frame_data with
  | none => ⟨GAS_SENSOR_ERR_NULL_PARAM, slow, wf, st⟩
  | some f =>
    if ¬(byteAt f 0 = GAS_SENSOR_FLAG1 ∧ byteAt f 1 = GAS_SENSOR_FLAG2) then
      ⟨GAS_SENSOR_ERR_INVALID_FRAME, slow, wf, st⟩
    else if gas_sensor_verify_checksum (some f) = false then
      ⟨GAS_SENSOR_ERR_CHECKSUM, slow, wf, st⟩
    else
      let wf' := wf.map fun _ =>
        { co2 := parse_concentration_2byte (parse_uint16_be f 4)
          n2o := parse_concentration_2byte (parse_uint16_be f 6)
          aa1 := parse_concentration_2byte (parse_uint16_be f 8)
          aa2 := parse_concentration_2byte (parse_uint16_be f 10)
          o2 := parse_concentration_2byte (parse_uint16_be f 12) : gas_sensor_waveform_t }
      let st' := st.map fun _ => decode_status (byteAt f 3)
      match slow with
      | none => ⟨GAS_SENSOR_OK, none, wf', st'⟩
      | some sd =>
        let frame_id := byteAt f 2
        if frame_id ≥ GAS_SENSOR_FRAME_ID_MAX then
          ⟨GAS_SENSOR_ERR_INVALID_FRAME, some sd, wf', st'⟩
        else
          let sd1 := { sd with last_frame_id := frame_id }
          let sd2 :=
            if frame_id = 0x00 then { sd1 with insp_vals := parse_insp_vals f 13 }
            else if frame_id = 0x01 then { sd1 with exp_vals := parse_exp_vals f 13 }
            else if frame_id = 0x02 then { sd1 with mom_vals := parse_mom_vals f 13 }
            else if frame_id = 0x03 then { sd1 with gen_vals := parse_gen_vals f 13 }
            else if frame_id = 0x04 then { sd1 with sensor_regs := parse_sensor_regs f 13 }
            else if frame_id = 0x05 then { sd1 with config_data := parse_config_data f 13 }
            else if frame_id = 0x06 then { sd1 with service_data := parse_service_data f 13 }
            else sd1
          ⟨GAS_SENSOR_OK, some sd2, wf', st'⟩

/-- The all-zero aggregate produced by `memset(slow_data, 0, ...)`. -/
def zero_slow_data : gas_sensor_slow_data_t where
  last_frame_id := 0
  insp_vals := ⟨0, 0, 0, 0, 0⟩
  exp_vals := ⟨0, 0, 0, 0, 0⟩
  mom_vals := ⟨0, 0, 0, 0, 0⟩
  gen_vals := ⟨0, 0, 0, 0, 0⟩
  sensor_regs := ⟨0, ⟨false, false, false, false⟩, ⟨false, false, false⟩,
    ⟨false, false, false, false, false, false, false⟩⟩
  config_data := ⟨false, false, false, false, false, false, false, false, 0, 0, false, 0⟩
  service_data := ⟨0, ⟨false, false, false, false⟩⟩

/-- V1 `gas_sensor_init_slow_data` on a non-NULL aggregate: `memset` to
zero, then the three five-float blocks and the pressure are set to the
invalid sentinel.  (`last_frame_id`, `resp_rate` and `time_since_breath`
stay at the `memset` value 0.) -/
def gas_sensor_init_slow_data : gas_sensor_slow_data_t :=
  { zero_slow_data with
    insp_vals := ⟨GAS_SENSOR_CONC_INVALID, GAS_SENSOR_CONC_INVALID, GAS_SENSOR_CONC_INVALID,
      GAS_SENSOR_CONC_INVALID, GAS_SENSOR_CONC_INVALID⟩
    exp_vals := ⟨GAS_SENSOR_CONC_INVALID, GAS_SENSOR_CONC_INVALID, GAS_SENSOR_CONC_INVALID,
      GAS_SENSOR_CONC_INVALID, GAS_SENSOR_CONC_INVALID⟩
    mom_vals := ⟨GAS_SENSOR_CONC_INVALID, GAS_SENSOR_CONC_INVALID, GAS_SENSOR_CONC_INVALID,
      GAS_SENSOR_CONC_INVALID, GAS_SENSOR_CONC_INVALID⟩
    gen_vals := { zero_slow_data.gen_vals with atm_pressure := GAS_SENSOR_CONC_INVALID } }

end V1

namespace V2

/-- Variant V2 single-byte concentration: `0xFF` sentinel, else the raw
value as-is (no division — the second documented protocol revision). -/
def parse_concentration (raw_value : Nat) : ℚ :=
  if raw_value = GAS_SENSOR_NO_DATA then GAS_SENSOR_CONC_INVALID
  else (raw_value : ℚ)

/-- Frame ID 0x00 payload decode; `base` is the offset of the slow-data
pointer the C code passes (`&frame_data[14]` in V2). -/
def parse_insp_vals (f : List Nat) (base : Nat) : gas_sensor_insp_vals_t where
  co2 := parse_concentration (byteAt f base)
  n2o := parse_concentration (byteAt f (base + 1))
  aa1 := parse_concentration (byteAt f (base + 2))
  aa2 := parse_concentration (byteAt f (base + 3))
  o2 := parse_concentration (byteAt f (base + 4))

/-- Frame ID 0x01 payload decode. -/
def parse_exp_vals (f : List Nat) (base : Nat) : gas_sensor_exp_vals_t where
  co2 := parse_concentration (byteAt f base)
  n2o := parse_concentration (byteAt f (base + 1))
  aa1 := parse_concentration (byteAt f (base + 2))
  aa2 := parse_concentration (byteAt f (base + 3))
  o2 := parse_concentration (byteAt f (base + 4))

/-- Frame ID 0x02 payload decode. -/
def parse_mom_vals (f : List Nat) (base : Nat) : gas_sensor_mom_vals_t where
  co2 := parse_concentration (byteAt f base)
  n2o := parse_concentration (byteAt f (base + 1))
  aa1 := parse_concentration (byteAt f (base + 2))
  aa2 := parse_concentration (byteAt f (base + 3))
  o2 := parse_concentration (byteAt f (base + 4))

/-- Frame ID 0x03 payload decode (V2: pressure invalid when either raw
byte is `0xFF`, scale `/ 10.0f`; agent ids mapped to 0 on `0xFF`). -/
def parse_gen_vals (f : List Nat) (base : Nat) : gas_sensor_gen_vals_t where
  resp_rate := if byteAt f base = GAS_SENSOR_NO_DATA then GAS_SENSOR_NO_DATA else byteAt f base
  time_since_breath :=
    if byteAt f (base + 1) = GAS_SENSOR_NO_DATA then GAS_SENSOR_NO_DATA else byteAt f (base + 1)
  primary_agent := if byteAt f (base + 2) = GAS_SENSOR_NO_DATA then 0 else byteAt f (base + 2)
  secondary_agent := if byteAt f (base + 3) = GAS_SENSOR_NO_DATA then 0 else byteAt f (base + 3)
  atm_pressure :=
    if byteAt f (base + 4) = GAS_SENSOR_NO_DATA ∨ byteAt f (base + 5) = GAS_SENSOR_NO_DATA then
      GAS_SENSOR_CONC_INVALID
    else (parse_uint16_be f (base + 4) : ℚ) / 10

/-- Frame ID 0x04 payload decode (V2 offsets: mode at byte 0, error at
byte 2, adapter at byte 3, data-valid at byte 4). -/
def parse_sensor_regs (f : List Nat) (base : Nat) : gas_sensor_sensor_regs_t where
  mode := byteAt f base &&& 0x07
  error :=
    { sw_error := byteAt f (base + 2) &&& 0x01 != 0
      hw_error := byteAt f (base + 2) &&& 0x02 != 0
      motor_fail := byteAt f (base + 2) &&& 0x04 != 0
      uncalibrated := byteAt f (base + 2) &&& 0x08 != 0 }
  adapter :=
    { replace_adapter := byteAt f (base + 3) &&& 0x01 != 0
      no_adapter := byteAt f (base + 3) &&& 0x02 != 0
      o2_clogged := byteAt f (base + 3) &&& 0x04 != 0 }
  data_valid :=
    { co2_out_of_range := byteAt f (base + 4) &&& 0x01 != 0
      n2o_out_of_range := byteAt f (base + 4) &&& 0x02 != 0
      agent_out_of_range := byteAt f (base + 4) &&& 0x04 != 0
      o2_out_of_range := byteAt f (base + 4) &&& 0x08 != 0
      temp_out_of_range := byteAt f (base + 4) &&& 0x10 != 0
      pressure_out_of_range := byteAt f (base + 4) &&& 0x20 != 0
      zero_calibration_required := byteAt f (base + 4) &&& 0x40 != 0 }

/-- Frame ID 0x05 payload decode (V2: one-byte hw revision, config
register 1 at byte 5). -/
def parse_config_data (f : List Nat) (base : Nat) : gas_sensor_config_data_t where
  o2_fitted := byteAt f base &&& 0x01 != 0
  co2_fitted := byteAt f base &&& 0x02 != 0
  n2o_fitted := byteAt f base &&& 0x04 != 0
  halothane_fitted := byteAt f base &&& 0x08 != 0
  enflurane_fitted := byteAt f base &&& 0x10 != 0
  isoflurane_fitted := byteAt f base &&& 0x20 != 0
  sevoflurane_fitted := byteAt f base &&& 0x40 != 0
  desflurane_fitted := byteAt f base &&& 0x80 != 0
  hw_revision := byteAt f (base + 1)
  sw_revision := parse_uint16_be f (base + 2)
  id_config := byteAt f (base + 5) &&& 0x01 != 0
  comm_protocol_rev := (byteAt f (base + 5) >>> 1) &&& 0x7F

/-- Frame ID 0x06 payload decode. -/
def parse_service_data (f : List Nat) (base : Nat) : gas_sensor_service_data_t where
  serial_number := parse_uint16_be f base
  status :=
    { zero_disabled := byteAt f (base + 2) &&& 0x01 != 0
      zero_in_progress := byteAt f (base + 2) &&& 0x02 != 0
      span_calibration_error := byteAt f (base + 2) &&& 0x04 != 0
      span_calibration_in_progress := byteAt f (base + 2) &&& 0x08 != 0 }

/-- V2 `gas_sensor_verify_checksum`: only the checksum comparison, no
sync-byte requirement. -/
def gas_sensor_verify_checksum (frame_data : Option (List Nat)) : Bool :=
  match frame_data with
  | none => false
  | some f => calculate_checksum f = byteAt f 20

/-- V2 `gas_sensor_parse_frame`.  Slow-data payload pointer is
`&frame_data[14]`; `last_frame_id` is written before the frame-id
dispatch, so an invalid id still updates it before the error return. -/
def gas_sensor_parse_frame (frame_data : Option (List Nat))
    (slow : Option gas_sensor_slow_data_t) (wf : Option gas_sensor_waveform_t)
    (st : Option gas_sensor_status_t) : ParseResult :=
  match frame_data with
  | none => ⟨GAS_SENSOR_ERR_NULL_PARAM, slow, wf, st⟩
  | some f =>
    if ¬(byteAt f 0 = GAS_SENSOR_FLAG1 ∧ byteAt f 1 = GAS_SENSOR_FLAG2) then
      ⟨GAS_SENSOR_ERR_INVALID_FRAME, slow, wf, st⟩
    else if gas_sensor_verify_checksum (some f) = false then
      ⟨GAS_SENSOR_ERR_CHECKSUM, slow, wf, st⟩
    else
      let wf' := wf.map fun _ =>
        { co2 := (parse_uint16_be f 4 : ℚ) / 100
          n2o := (parse_uint16_be f 6 : ℚ) / 100
          aa1 := (parse_uint16_be f 8 : ℚ) / 100
          aa2 := (parse_uint16_be f 10 : ℚ) / 100
          o2 := (parse_uint16_be f 12 : ℚ) / 100 : gas_sensor_waveform_t }
      let st' := st.map fun _ => V1.decode_status (byteAt f 3)
      match slow with
      | none => ⟨GAS_SENSOR_OK, none, wf', st'⟩
      | some sd =>
        let frame_id := byteAt f 2
        let sd1 := { sd with last_frame_id := frame_id }
        if frame_id = 0x00 then
          ⟨GAS_SENSOR_OK, some { sd1 with insp_vals := parse_insp_vals f 14 }, wf', st'⟩
        else if frame_id = 0x01 then
          ⟨GAS_SENSOR_OK, some { sd1 with exp_vals := parse_exp_vals f 14 }, wf', st'⟩
        else if frame_id = 0x02 then
          ⟨GAS_SENSOR_OK, some { sd1 with mom_vals := parse_mom_vals f 14 }, wf', st'⟩
        else if frame_id = 0x03 then
          ⟨GAS_SENSOR_OK, some { sd1 with gen_vals := parse_gen_vals f 14 }, wf', st'⟩
        else if frame_id = 0x04 then
          ⟨GAS_SENSOR_OK, some { sd1 with sensor_regs := parse_sensor_regs f 14 }, wf', st'⟩
        else if frame_id = 0x05 then
          ⟨GAS_SENSOR_OK, some { sd1 with config_data := parse_config_data f 14 }, wf', st'⟩
        else if frame_id = 0x06 then
          ⟨GAS_SENSOR_OK, some { sd1 with service_data := parse_service_data f 14 }, wf', st'⟩
        else if frame_id = 0x07 ∨ frame_id = 0x08 ∨ frame_id = 0x09 then
          ⟨GAS_SENSOR_OK, some sd1, wf', st'⟩
        else
          ⟨GAS_SENSOR_ERR_INVALID_FRAME, some sd1, wf', st'⟩

/-- V2 `gas_sensor_init_slow_data` on a non-NULL aggregate: `memset` to
zero, then `last_frame_id = 0xFF`, all fifteen concentrations and the
pressure to the invalid sentinel, `resp_rate` and `time_since_breath` to
`GAS_SENSOR_NO_DATA`. -/
def gas_sensor_init_slow_data : gas_sensor_slow_data_t :=
  { V1.zero_slow_data with
    last_frame_id := 0xFF
    insp_vals := ⟨GAS_SENSOR_CONC_INVALID, GAS_SENSOR_CONC_INVALID, GAS_SENSOR_CONC_INVALID,
      GAS_SENSOR_CONC_INVALID, GAS_SENSOR_CONC_INVALID⟩
    exp_vals := ⟨GAS_SENSOR_CONC_INVALID, GAS_SENSOR_CONC_INVALID, GAS_SENSOR_CONC_INVALID,
      GAS_SENSOR_CONC_INVALID, GAS_SENSOR_CONC_INVALID⟩
    mom_vals := ⟨GAS_SENSOR_CONC_INVALID, GAS_SENSOR_CONC_INVALID, GAS_SENSOR_CONC_INVALID,
      GAS_SENSOR_CONC_INVALID, GAS_SENSOR_CONC_INVALID⟩
    gen_vals := { V1.zero_slow_data.gen_vals with
      resp_rate := GAS_SENSOR_NO_DATA
      time_since_breath := GAS_SENSOR_NO_DATA
      atm_pressure := GAS_SENSOR_CONC_INVALID } }

/-- The sync scan of `gas_sensor_read_frame`: index of the first
`0xAA 0x55` pair in the buffer (the C loop over `i < rx_buffer_len - 1`). -/
def find_sync : List Nat → Option Nat
  | a :: b :: rest =>
    if a % 256 = GAS_SENSOR_FLAG1 ∧ b % 256 = GAS_SENSOR_FLAG2 then some 0
    else (find_sync (b :: rest)).map (· + 1)
  | _ => none

/-- Result of one `gas_sensor_read_frame` call: returned code, the
handle's accumulation buffer and aggregate after the call, and the
post-call contents of the nullable waveform/status outputs. -/
structure ReadFrameResult where
  res : Int
  buf : List Nat
  slow : gas_sensor_slow_data_t
  wf : Option gas_sensor_waveform_t
  st : Option gas_sensor_status_t
deriving DecidableEq, Repr

/-- V2 `gas_sensor_read_frame`, modelled from the point where the serial
read has produced `chunk` (at most 128 bytes, the size of
`temp_buffer`): append with overflow reset, sync scan, extraction and
parse against the handle's aggregate `slow`.  The caller-side copy of the
aggregate and the consumer callback that follow a successful parse are
external collaborators and outside the model. -/
def gas_sensor_read_frame (buf chunk : List Nat) (slow : gas_sensor_slow_data_t)
    (wf : Option gas_sensor_waveform_t) (st : Option gas_sensor_status_t) : ReadFrameResult :=
  let buf1 :=
    if 0 < chunk.length then
      if 256 < buf.length + chunk.length then chunk else buf ++ chunk
    else buf
  match find_sync buf1 with
  | none =>
    if buf1.length < 2 then ⟨GAS_SENSOR_ERR_SERIAL_READ, buf1, slow, wf, st⟩
    else ⟨GAS_SENSOR_ERR_INVALID_FRAME, buf1.drop 1, slow, wf, st⟩
  | some frame_start =>
    let buf2 := buf1.drop frame_start
    if buf2.length < GAS_SENSOR_FRAME_SIZE then ⟨GAS_SENSOR_ERR_SERIAL_READ, buf2, slow, wf, st⟩
    else
      let pr := gas_sensor_parse_frame (some buf2) (some slow) wf st
      let buf3 :=
        if pr.res = GAS_SENSOR_OK ∨ pr.res = GAS_SENSOR_ERR_CHECKSUM then
          buf2.drop GAS_SENSOR_FRAME_SIZE
        else buf2
      ⟨pr.res, buf3, pr.slow.getD slow, pr.wf, pr.st⟩

end V2

/-- The end-to-end scenario frame
`AA 55 03 00 00 00 00 00 00 00 00 00 06 40 00 FF 04 00 03 F5 BC`. -/
def scenario_frame : List Nat :=
  [0xAA, 0x55, 0x03, 0x00, 0x00, 0x00, 0x00, 0x00, 0x00, 0x00, 0x00, 0x00, 0x06, 0x40,
   0x00, 0xFF, 0x04, 0x00, 0x03, 0xF5, 0xBC]

/-- Twenty-one zero bytes: its checksum byte matches (both are zero) but
the sync bytes are absent. -/
def zero_frame : List Nat := List.replicate 21 0

/-- A valid frame with id 0 and all-zero payload and checksum. -/
def sync_frame : List Nat := [0xAA, 0x55] ++ List.replicate 19 0

/-- A frame with valid sync and checksum whose id byte is `0x0A ≥ 10`. -/
def bad_id_frame : List Nat := [0xAA, 0x55, 0x0A] ++ List.replicate 17 0 ++ [0xF6]

/-- A valid frame whose first waveform word is the raw `0xFFFF`. -/
def sentinel_frame : List Nat :=
  [0xAA, 0x55, 0x00, 0x00, 0xFF, 0xFF, 0x00, 0x00, 0x00, 0x00, 0x00, 0x00, 0x00, 0x00,
   0x00, 0x00, 0x00, 0x00, 0x00, 0x00, 0x02]

/-- A valid frame with the reserved id 7. -/
def reserved_frame : List Nat := [0xAA, 0x55, 0x07] ++ List.replicate 17 0 ++ [0xF9]

def wf0 : gas_sensor_waveform_t := ⟨0, 0, 0, 0, 0⟩

/-- Claim C2, counterexample: on the all-zero 21-byte array the computed
checksum equals byte 20 (both are zero), yet the offline-variant
`gas_sensor_verify_checksum` returns `false` because the sync bytes are
missing — so "returns true iff the computed checksum equals b[20]" fails
for that implementation of the function. -/
theorem C2_verify_checksum_cex :
    calculate_checksum zero_frame = byteAt zero_frame 20 ∧
    V1.gas_sensor_verify_checksum (some zero_frame) = false := by
  decide

/-- Claim C2 (amended): the serial-variant `gas_sensor_verify_checksum`
returns true iff the computed checksum `(~sum(bytes 2..19) + 1) & 0xFF`
equals byte `b[20]`; the offline-variant implementation additionally
requires the sync bytes, returning true iff `b[0] = 0xAA`, `b[1] = 0x55`
and the computed checksum equals `b[20]`. -/
theorem C2_verify_checksum_amended (f : List Nat) :
    (V2.gas_sensor_verify_checksum (some f) = true ↔
      calculate_checksum f = byteAt f 20) ∧
    (V1.gas_sensor_verify_checksum (some f) = true ↔
      byteAt f 0 = GAS_SENSOR_FLAG1 ∧ byteAt f 1 = GAS_SENSOR_FLAG2 ∧
        calculate_checksum f = byteAt f 20) := by
  constructor
  · simp [V2.gas_sensor_verify_checksum]
  · by_cases h : byteAt f 0 = GAS_SENSOR_FLAG1 ∧ byteAt f 1 = GAS_SENSOR_FLAG2
    · simp [V1.gas_sensor_verify_checksum, h]
    · simp only [V1.gas_sensor_verify_checksum, if_pos h]
      simp only [Bool.false_eq_true, false_iff]
      intro hcon
      exact h ⟨hcon.1, hcon.2.1⟩

/-- Claim C7, counterexample: the offline-variant
`gas_sensor_init_slow_data` leaves `last_frame_id`, `resp_rate` and
`time_since_breath` at the `memset` value 0 instead of the 0xFF
sentinels the claim requires. -/
theorem C7_init_slow_data_cex :
    V1.gas_sensor_init_slow_data.last_frame_id = 0 ∧
    V1.gas_sensor_init_slow_data.gen_vals.resp_rate = 0 ∧
    V1.gas_sensor_init_slow_data.gen_vals.time_since_breath = 0 ∧
    (0 : Nat) ≠ GAS_SENSOR_NO_DATA := by
  decide

/-- Claim C7 (amended): the serial-variant `gas_sensor_init_slow_data`
behaves exactly as claimed — every concentration of the three five-gas
blocks and the pressure is the invalid sentinel, `resp_rate` and
`time_since_breath` are 0xFF, and `last_frame_id` is the 0xFF "no data
yet" sentinel; the offline-variant sets the concentrations and the
pressure to the sentinel but leaves `last_frame_id`, `resp_rate` and
`time_since_breath` at 0. -/
theorem C7_init_slow_data_amended :
    V2.gas_sensor_init_slow_data.last_frame_id = GAS_SENSOR_NO_DATA ∧
    V2.gas_sensor_init_slow_data.insp_vals =
      ⟨GAS_SENSOR_CONC_INVALID, GAS_SENSOR_CONC_INVALID, GAS_SENSOR_CONC_INVALID,
        GAS_SENSOR_CONC_INVALID, GAS_SENSOR_CONC_INVALID⟩ ∧
    V2.gas_sensor_init_slow_data.exp_vals =
      ⟨GAS_SENSOR_CONC_INVALID, GAS_SENSOR_CONC_INVALID, GAS_SENSOR_CONC_INVALID,
        GAS_SENSOR_CONC_INVALID, GAS_SENSOR_CONC_INVALID⟩ ∧
    V2.gas_sensor_init_slow_data.mom_vals =
      ⟨GAS_SENSOR_CONC_INVALID, GAS_SENSOR_CONC_INVALID, GAS_SENSOR_CONC_INVALID,
        GAS_SENSOR_CONC_INVALID, GAS_SENSOR_CONC_INVALID⟩ ∧
    V2.gas_sensor_init_slow_data.gen_vals.resp_rate = GAS_SENSOR_NO_DATA ∧
    V2.gas_sensor_init_slow_data.gen_vals.time_since_breath = GAS_SENSOR_NO_DATA ∧
    V2.gas_sensor_init_slow_data.gen_vals.atm_pressure = GAS_SENSOR_CONC_INVALID ∧
    V1.gas_sensor_init_slow_data.insp_vals =
      ⟨GAS_SENSOR_CONC_INVALID, GAS_SENSOR_CONC_INVALID, GAS_SENSOR_CONC_INVALID,
        GAS_SENSOR_CONC_INVALID, GAS_SENSOR_CONC_INVALID⟩ ∧
    V1.gas_sensor_init_slow_data.exp_vals =
      ⟨GAS_SENSOR_CONC_INVALID, GAS_SENSOR_CONC_INVALID, GAS_SENSOR_CONC_INVALID,
        GAS_SENSOR_CONC_INVALID, GAS_SENSOR_CONC_INVALID⟩ ∧
    V1.gas_sensor_init_slow_data.mom_vals =
      ⟨GAS_SENSOR_CONC_INVALID, GAS_SENSOR_CONC_INVALID, GAS_SENSOR_CONC_INVALID,
        GAS_SENSOR_CONC_INVALID, GAS_SENSOR_CONC_INVALID⟩ ∧
    V1.gas_sensor_init_slow_data.gen_vals.atm_pressure = GAS_SENSOR_CONC_INVALID ∧
    V1.gas_sensor_init_slow_data.last_frame_id = 0 ∧
    V1.gas_sensor_init_slow_data.gen_vals.resp_rate = 0 ∧
    V1.gas_sensor_init_slow_data.gen_vals.time_since_breath = 0 := by
  decide

/-- Claim C8, counterexample: on the scenario frame the fifth waveform
word is bytes 12-13 = `0x0640` = 1600, which decodes to 16.0 — not zero,
so "all five decoded waveform concentrations equal to zero" fails. -/
theorem C8_scenario_cex :
    parse_uint16_be scenario_frame 12 = 0x0640 ∧
    ((V1.gas_sensor_parse_frame (some scenario_frame) (some V1.gas_sensor_init_slow_data)
      (some wf0) none).wf.getD wf0).o2 = 16 ∧
    (16 : ℚ) ≠ 0 := by
  refine ⟨by decide, ?_, by norm_num⟩
  norm_num [V1.gas_sensor_parse_frame, V1.gas_sensor_verify_checksum, calculate_checksum,
    byteAt, scenario_frame, parse_uint16_be, V1.parse_concentration_2byte, wf0,
    List.getD, List.range_succ, GAS_SENSOR_FLAG1, GAS_SENSOR_FLAG2, GAS_SENSOR_FRAME_ID_MAX]

/-- Claim C8 (amended): the scenario frame passes checksum verification
(byte `0xBC` equals the two's complement of the sum of bytes 2-19), and
`gas_sensor_parse_frame` on it succeeds with `frame_id = 3`; the first
four decoded waveform concentrations (CO2, N2O, AA1, AA2) are zero while
the fifth (O2, bytes 12-13 = `0x0640`) decodes to 16.0. -/
theorem C8_scenario_amended :
    calculate_checksum scenario_frame = 0xBC ∧
    byteAt scenario_frame 20 = 0xBC ∧
    V1.gas_sensor_verify_checksum (some scenario_frame) = true ∧
    (V1.gas_sensor_parse_frame (some scenario_frame) (some V1.gas_sensor_init_slow_data)
      (some wf0) none).res = GAS_SENSOR_OK ∧
    ((V1.gas_sensor_parse_frame (some scenario_frame) (some V1.gas_sensor_init_slow_data)
      (some wf0) none).slow.getD V1.zero_slow_data).last_frame_id = 3 ∧
    (V1.gas_sensor_parse_frame (some scenario_frame) (some V1.gas_sensor_init_slow_data)
      (some wf0) none).wf = some ⟨0, 0, 0, 0, 16⟩ := by
  refine ⟨by decide, by decide, by decide, by decide, by decide, ?_⟩
  norm_num [V1.gas_sensor_parse_frame, V1.gas_sensor_verify_checksum, calculate_checksum,
    byteAt, scenario_frame, parse_uint16_be, V1.parse_concentration_2byte, wf0,
    List.getD, List.range_succ, GAS_SENSOR_FLAG1, GAS_SENSOR_FLAG2, GAS_SENSOR_FRAME_ID_MAX]

/-- Claim C4, counterexample: `sentinel_frame` has valid sync and
checksum and its first waveform word is the raw `0xFFFF`, yet the
serial-variant `gas_sensor_parse_frame` decodes it to
`65535 / 100 = 655.35`, not the invalid sentinel — that implementation
has no `0xFFFF` check on the waveform path. -/
theorem C4_waveform_sentinel_cex :
    byteAt sentinel_frame 0 = GAS_SENSOR_FLAG1 ∧
    byteAt sentinel_frame 1 = GAS_SENSOR_FLAG2 ∧
    calculate_checksum sentinel_frame = byteAt sentinel_frame 20 ∧
    parse_uint16_be sentinel_frame 4 = 0xFFFF ∧
    ((V2.gas_sensor_parse_frame (some sentinel_frame) none (some wf0) none).wf.getD wf0).co2 =
      13107 / 20 ∧
    (13107 : ℚ) / 20 ≠ GAS_SENSOR_CONC_INVALID := by
  refine ⟨by decide, by decide, by decide, by decide, ?_,
    by norm_num [GAS_SENSOR_CONC_INVALID]⟩
  norm_num [V2.gas_sensor_parse_frame, V2.gas_sensor_verify_checksum, calculate_checksum,
    byteAt, sentinel_frame, parse_uint16_be, wf0, List.getD, List.range_succ,
    GAS_SENSOR_FLAG1, GAS_SENSOR_FLAG2]

/-- Claim C4 (amended): on every frame with valid sync and checksum the
offline-variant `gas_sensor_parse_frame` decodes the five waveform words
(bytes [4..14), big-endian) through `parse_concentration_2byte`, which
maps the raw `0xFFFF` to the invalid sentinel and any other word `w` to
`w / 100.0`; the serial-variant decodes every word, `0xFFFF` included, as
`w / 100.0` with no sentinel. -/
theorem C4_waveform_decode_amended (f : List Nat) (w0 : gas_sensor_waveform_t) (w : Nat)
    (h0 : byteAt f 0 = GAS_SENSOR_FLAG1) (h1 : byteAt f 1 = GAS_SENSOR_FLAG2)
    (hc : calculate_checksum f = byteAt f 20) (hw : w ≠ 0xFFFF) :
    V1.parse_concentration_2byte 0xFFFF = GAS_SENSOR_CONC_INVALID ∧
    V1.parse_concentration_2byte w = (w : ℚ) / 100 ∧
    (V1.gas_sensor_parse_frame (some f) none (some w0) none).wf =
      some ⟨V1.parse_concentration_2byte (parse_uint16_be f 4),
        V1.parse_concentration_2byte (parse_uint16_be f 6),
        V1.parse_concentration_2byte (parse_uint16_be f 8),
        V1.parse_concentration_2byte (parse_uint16_be f 10),
        V1.parse_concentration_2byte (parse_uint16_be f 12)⟩ ∧
    (V2.gas_sensor_parse_frame (some f) none (some w0) none).wf =
      some ⟨(parse_uint16_be f 4 : ℚ) / 100, (parse_uint16_be f 6 : ℚ) / 100,
        (parse_uint16_be f 8 : ℚ) / 100, (parse_uint16_be f 10 : ℚ) / 100,
        (parse_uint16_be f 12 : ℚ) / 100⟩ := by
  refine ⟨by simp [V1.parse_concentration_2byte],
    by simp [V1.parse_concentration_2byte, hw], ?_, ?_⟩
  · simp [V1.gas_sensor_parse_frame, V1.gas_sensor_verify_checksum, h0, h1, hc]
  · simp [V2.gas_sensor_parse_frame, V2.gas_sensor_verify_checksum, h0, h1, hc]

/-- Claim C4 witness: the amended statement applied to `sync_frame`
(valid sync and checksum) and to the word 500 (the spec's own example
`500 → 5.00`). -/
theorem C4_waveform_decode_witness :
    V1.parse_concentration_2byte 0xFFFF = GAS_SENSOR_CONC_INVALID ∧
    V1.parse_concentration_2byte 500 = (500 : ℚ) / 100 ∧
    (V1.gas_sensor_parse_frame (some sync_frame) none (some wf0) none).wf =
      some ⟨V1.parse_concentration_2byte (parse_uint16_be sync_frame 4),
        V1.parse_concentration_2byte (parse_uint16_be sync_frame 6),
        V1.parse_concentration_2byte (parse_uint16_be sync_frame 8),
        V1.parse_concentration_2byte (parse_uint16_be sync_frame 10),
        V1.parse_concentration_2byte (parse_uint16_be sync_frame 12)⟩ ∧
    (V2.gas_sensor_parse_frame (some sync_frame) none (some wf0) none).wf =
      some ⟨(parse_uint16_be sync_frame 4 : ℚ) / 100, (parse_uint16_be sync_frame 6 : ℚ) / 100,
        (parse_uint16_be sync_frame 8 : ℚ) / 100, (parse_uint16_be sync_frame 10 : ℚ) / 100,
        (parse_uint16_be sync_frame 12 : ℚ) / 100⟩ :=
  C4_waveform_decode_amended sync_frame wf0 500 (by decide) (by decide) (by decide) (by decide)

/-- Claim C5, counterexample: `bad_id_frame` has valid sync and checksum
and frame id `0x0A ≥ 10`, yet with a NULL `slow_data` pointer both
implementations of `gas_sensor_parse_frame` return `GAS_SENSOR_OK`, not
the InvalidFrameId rejection — the id check sits inside the
`slow_data != NULL` branch. -/
theorem C5_invalid_id_null_slow_cex :
    byteAt bad_id_frame 2 = 0x0A ∧
    calculate_checksum bad_id_frame = byteAt bad_id_frame 20 ∧
    (V1.gas_sensor_parse_frame (some bad_id_frame) none none none).res = GAS_SENSOR_OK ∧
    (V2.gas_sensor_parse_frame (some bad_id_frame) none none none).res = GAS_SENSOR_OK ∧
    GAS_SENSOR_OK ≠ GAS_SENSOR_ERR_INVALID_FRAME := by
  decide

/-- Claim C5 (amended): on every frame with valid sync and checksum and
frame-id byte `≥ 10`, both implementations of `gas_sensor_parse_frame`
return `GAS_SENSOR_ERR_INVALID_FRAME` whenever the `slow_data` output is
non-NULL (for every combination of the waveform and status outputs), but
with a NULL `slow_data` pointer the frame id is never validated and both
return `GAS_SENSOR_OK`. -/
theorem C5_invalid_frame_id_amended (f : List Nat) (sd : gas_sensor_slow_data_t)
    (wf : Option gas_sensor_waveform_t) (st : Option gas_sensor_status_t)
    (h0 : byteAt f 0 = GAS_SENSOR_FLAG1) (h1 : byteAt f 1 = GAS_SENSOR_FLAG2)
    (hc : calculate_checksum f = byteAt f 20) (hid : GAS_SENSOR_FRAME_ID_MAX ≤ byteAt f 2) :
    (V1.gas_sensor_parse_frame (some f) (some sd) wf st).res = GAS_SENSOR_ERR_INVALID_FRAME ∧
    (V2.gas_sensor_parse_frame (some f) (some sd) wf st).res = GAS_SENSOR_ERR_INVALID_FRAME ∧
    (V1.gas_sensor_parse_frame (some f) none wf st).res = GAS_SENSOR_OK ∧
    (V2.gas_sensor_parse_frame (some f) none wf st).res = GAS_SENSOR_OK := by
  have hid' : 10 ≤ byteAt f 2 := hid
  have hne : ∀ m : Nat, m < 10 → ¬ byteAt f 2 = m := by
    intro m hm he
    omega
  refine ⟨?_, ?_, ?_, ?_⟩
  · simp [V1.gas_sensor_parse_frame, V1.gas_sensor_verify_checksum, h0, h1, hc, hid]
  · simp [V2.gas_sensor_parse_frame, V2.gas_sensor_verify_checksum, h0, h1, hc,
      hne 0 (by norm_num), hne 1 (by norm_num), hne 2 (by norm_num), hne 3 (by norm_num),
      hne 4 (by norm_num), hne 5 (by norm_num), hne 6 (by norm_num), hne 7 (by norm_num),
      hne 8 (by norm_num), hne 9 (by norm_num)]
  · simp [V1.gas_sensor_parse_frame, V1.gas_sensor_verify_checksum, h0, h1, hc]
  · simp [V2.gas_sensor_parse_frame, V2.gas_sensor_verify_checksum, h0, h1, hc]

/-- Claim C5 witness: the amended statement applied to `bad_id_frame`
with the zeroed aggregate and NULL waveform/status outputs. -/
theorem C5_invalid_frame_id_witness :
    (V1.gas_sensor_parse_frame (some bad_id_frame) (some V1.zero_slow_data) none none).res =
      GAS_SENSOR_ERR_INVALID_FRAME ∧
    (V2.gas_sensor_parse_frame (some bad_id_frame) (some V1.zero_slow_data) none none).res =
      GAS_SENSOR_ERR_INVALID_FRAME ∧
    (V1.gas_sensor_parse_frame (some bad_id_frame) none none none).res = GAS_SENSOR_OK ∧
    (V2.gas_sensor_parse_frame (some bad_id_frame) none none none).res = GAS_SENSOR_OK :=
  C5_invalid_frame_id_amended bad_id_frame V1.zero_slow_data none none
    (by decide) (by decide) (by decide) (by decide)

/-- Claim C6, counterexample: parsing `reserved_frame` (reserved id 7,
valid sync and checksum) against the freshly initialised aggregate
returns success but sets `last_frame_id` from 0 to 7 — the aggregate is
not "completely unchanged from its pre-call value". -/
theorem C6_reserved_ids_cex :
    (V1.gas_sensor_parse_frame (some reserved_frame) (some V1.gas_sensor_init_slow_data)
      none none).res = GAS_SENSOR_OK ∧
    ((V1.gas_sensor_parse_frame (some reserved_frame) (some V1.gas_sensor_init_slow_data)
      none none).slow.getD V1.zero_slow_data).last_frame_id = 7 ∧
    V1.gas_sensor_init_slow_data.last_frame_id = 0 ∧
    (7 : Nat) ≠ 0 := by
  decide

/-- Claim C6 (amended): on every frame with valid sync and checksum
whose frame id is 7, 8 or 9, both implementations of
`gas_sensor_parse_frame` return success and write no slow-data variant
slot, but both set `last_frame_id` to the reserved id — the aggregate
changes in exactly that one field. -/
theorem C6_reserved_ids_amended (f : List Nat) (sd : gas_sensor_slow_data_t)
    (wf : Option gas_sensor_waveform_t) (st : Option gas_sensor_status_t)
    (h0 : byteAt f 0 = GAS_SENSOR_FLAG1) (h1 : byteAt f 1 = GAS_SENSOR_FLAG2)
    (hc : calculate_checksum f = byteAt f 20)
    (hid : byteAt f 2 = 7 ∨ byteAt f 2 = 8 ∨ byteAt f 2 = 9) :
    (V1.gas_sensor_parse_frame (some f) (some sd) wf st).res = GAS_SENSOR_OK ∧
    (V1.gas_sensor_parse_frame (some f) (some sd) wf st).slow =
      some { sd with last_frame_id := byteAt f 2 } ∧
    (V2.gas_sensor_parse_frame (some f) (some sd) wf st).res = GAS_SENSOR_OK ∧
    (V2.gas_sensor_parse_frame (some f) (some sd) wf st).slow =
      some { sd with last_frame_id := byteAt f 2 } := by
  rcases hid with h | h | h <;>
    simp [V1.gas_sensor_parse_frame, V2.gas_sensor_parse_frame, V1.gas_sensor_verify_checksum,
      V2.gas_sensor_verify_checksum, h0, h1, hc, h, GAS_SENSOR_FRAME_ID_MAX]

/-- Claim C6 witness: the amended statement applied to `reserved_frame`
with the zeroed aggregate. -/
theorem C6_reserved_ids_witness :
    (V1.gas_sensor_parse_frame (some reserved_frame) (some V1.zero_slow_data) none none).res =
      GAS_SENSOR_OK ∧
    (V1.gas_sensor_parse_frame (some reserved_frame) (some V1.zero_slow_data) none none).slow =
      some { V1.zero_slow_data with last_frame_id := byteAt reserved_frame 2 } ∧
    (V2.gas_sensor_parse_frame (some reserved_frame) (some V1.zero_slow_data) none none).res =
      GAS_SENSOR_OK ∧
    (V2.gas_sensor_parse_frame (some reserved_frame) (some V1.zero_slow_data) none none).slow =
      some { V1.zero_slow_data with last_frame_id := byteAt reserved_frame 2 } :=
  C6_reserved_ids_amended reserved_frame V1.zero_slow_data none none
    (by decide) (by decide) (by decide) (Or.inl (by decide))

/-- Claim C9 (confirmed): whenever `gas_sensor_parse_frame` is invoked
with a NULL frame pointer, a frame without the `0xAA 0x55` sync bytes,
or a frame failing the checksum, both implementations return before any
output assignment: the three output pointers hold their pre-call values
and the result is not success. -/
theorem C9_parse_no_write_on_early_error (fo : Option (List Nat))
    (slow : Option gas_sensor_slow_data_t) (wf : Option gas_sensor_waveform_t)
    (st : Option gas_sensor_status_t)
    (h : fo = none ∨ ∃ f, fo = some f ∧
      (¬(byteAt f 0 = GAS_SENSOR_FLAG1 ∧ byteAt f 1 = GAS_SENSOR_FLAG2) ∨
        ¬ calculate_checksum f = byteAt f 20)) :
    (V1.gas_sensor_parse_frame fo slow wf st).slow = slow ∧
    (V1.gas_sensor_parse_frame fo slow wf st).wf = wf ∧
    (V1.gas_sensor_parse_frame fo slow wf st).st = st ∧
    (V1.gas_sensor_parse_frame fo slow wf st).res ≠ GAS_SENSOR_OK ∧
    (V2.gas_sensor_parse_frame fo slow wf st).slow = slow ∧
    (V2.gas_sensor_parse_frame fo slow wf st).wf = wf ∧
    (V2.gas_sensor_parse_frame fo slow wf st).st = st ∧
    (V2.gas_sensor_parse_frame fo slow wf st).res ≠ GAS_SENSOR_OK := by
  rcases h with rfl | ⟨f, rfl, hbad⟩
  · simp [V1.gas_sensor_parse_frame, V2.gas_sensor_parse_frame,
      GAS_SENSOR_ERR_NULL_PARAM, GAS_SENSOR_OK]
  · by_cases hs : byteAt f 0 = GAS_SENSOR_FLAG1 ∧ byteAt f 1 = GAS_SENSOR_FLAG2
    · have hcs : ¬ calculate_checksum f = byteAt f 20 := by
        rcases hbad with hbad | hbad
        · exact absurd hs hbad
        · exact hbad
      simp [V1.gas_sensor_parse_frame, V2.gas_sensor_parse_frame,
        V1.gas_sensor_verify_checksum, V2.gas_sensor_verify_checksum, hs.1, hs.2, hcs,
        GAS_SENSOR_ERR_CHECKSUM, GAS_SENSOR_OK]
    · simp [V1.gas_sensor_parse_frame, V2.gas_sensor_parse_frame, hs,
        GAS_SENSOR_ERR_INVALID_FRAME, GAS_SENSOR_OK]

/-- Claim C9 witness: the no-write guarantee applied to a NULL frame
pointer with NULL outputs. -/
theorem C9_parse_no_write_witness :
    (V1.gas_sensor_parse_frame none none none none).slow = none ∧
    (V1.gas_sensor_parse_frame none none none none).wf = none ∧
    (V1.gas_sensor_parse_frame none none none none).st = none ∧
    (V1.gas_sensor_parse_frame none none none none).res ≠ GAS_SENSOR_OK ∧
    (V2.gas_sensor_parse_frame none none none none).slow = none ∧
    (V2.gas_sensor_parse_frame none none none none).wf = none ∧
    (V2.gas_sensor_parse_frame none none none none).st = none ∧
    (V2.gas_sensor_parse_frame none none none none).res ≠ GAS_SENSOR_OK :=
  C9_parse_no_write_on_early_error none none none none (Or.inl rfl)

/-- Claim C10 (confirmed): one `gas_sensor_read_frame` call preserves
the synchronizer invariant `rx_buffer_len ≤ 256`: the serial read hands
over at most 128 bytes (`temp_buffer`), the buffer is reset to empty
before appending whenever the append would exceed the 256-byte capacity,
and the one-byte skip, the garbage discard and the 21-byte extraction
only shorten the buffer.  (`0 ≤ rx_buffer_len` is intrinsic to the
`List` model.) -/
theorem C10_read_frame_buffer_invariant (buf chunk : List Nat)
    (slow : gas_sensor_slow_data_t) (wf : Option gas_sensor_waveform_t)
    (st : Option gas_sensor_status_t)
    (hbuf : buf.length ≤ 256) (hchunk : chunk.length ≤ 128) :
    (V2.gas_sensor_read_frame buf chunk slow wf st).buf.length ≤ 256 := by
  have h1 : (if 0 < chunk.length then
      if 256 < buf.length + chunk.length then chunk else buf ++ chunk else buf).length ≤ 256 := by
    split_ifs with hch hov
    · omega
    · rw [List.length_append]
      omega
    · exact hbuf
  simp only [V2.gas_sensor_read_frame]
  generalize hB : (if 0 < chunk.length then
    if 256 < buf.length + chunk.length then chunk else buf ++ chunk else buf) = B at h1 ⊢
  rcases hfs : V2.find_sync B with _ | k
  · simp only [hfs]
    split_ifs
    · exact h1
    · simp only [List.length_drop]
      omega
  · simp only [hfs]
    split_ifs
    · simp only [List.length_drop]
      omega
    · simp only [List.length_drop]
      omega
    · simp only [List.length_drop]
      omega

/-- Claim C10 witness: the invariant applied to the empty buffer and an
empty serial chunk. -/
theorem C10_read_frame_buffer_invariant_witness :
    (V2.gas_sensor_read_frame [] [] V1.zero_slow_data none none).buf.length ≤ 256 :=
  C10_read_frame_buffer_invariant [] [] V1.zero_slow_data none none
    (by decide) (by decide)

/-- Claim C1: `gas_sensor_read_frame` removes the 21 candidate bytes
only when the parse returns `GAS_SENSOR_OK` or
`GAS_SENSOR_ERR_CHECKSUM`, contradicting its own comment "Remove
processed frame from buffer regardless of parse result": on an aligned
21-byte candidate with valid checksum but frame id `0x0A`, the call
returns `GAS_SENSOR_ERR_INVALID_FRAME` and leaves all 21 bytes at the
buffer front, so the identical frame is decoded again by the next call. -/
theorem C1_read_frame_invalid_id_not_removed :
    V2.find_sync bad_id_frame = some 0 ∧
    bad_id_frame.length = GAS_SENSOR_FRAME_SIZE ∧
    calculate_checksum bad_id_frame = byteAt bad_id_frame 20 ∧
    (V2.gas_sensor_read_frame bad_id_frame [] V2.gas_sensor_init_slow_data none none).res =
      GAS_SENSOR_ERR_INVALID_FRAME ∧
    (V2.gas_sensor_read_frame bad_id_frame [] V2.gas_sensor_init_slow_data none none).buf =
      bad_id_frame := by
  decide

/-- Claim C3 (confirmed): on every frame with valid sync and checksum
whose frame-id byte is `k < 7`, both implementations of
`gas_sensor_parse_frame` succeed, set the aggregate's `last_frame_id`
to `k`, and leave every slow-data slot other than the one selected by
`k` exactly as it was before the call. -/
theorem C3_merge_non_interference (f : List Nat) (k : Nat) (sd : gas_sensor_slow_data_t)
    (wf : Option gas_sensor_waveform_t) (st : Option gas_sensor_status_t)
    (h0 : byteAt f 0 = GAS_SENSOR_FLAG1) (h1 : byteAt f 1 = GAS_SENSOR_FLAG2)
    (hc : calculate_checksum f = byteAt f 20) (hid : byteAt f 2 = k) (hk : k < 7) :
    ((V1.gas_sensor_parse_frame (some f) (some sd) wf st).res = GAS_SENSOR_OK ∧
      ((V1.gas_sensor_parse_frame (some f) (some sd) wf st).slow.getD sd).last_frame_id = k ∧
      (k ≠ 0 → ((V1.gas_sensor_parse_frame (some f) (some sd) wf st).slow.getD sd).insp_vals =
        sd.insp_vals) ∧
      (k ≠ 1 → ((V1.gas_sensor_parse_frame (some f) (some sd) wf st).slow.getD sd).exp_vals =
        sd.exp_vals) ∧
      (k ≠ 2 → ((V1.gas_sensor_parse_frame (some f) (some sd) wf st).slow.getD sd).mom_vals =
        sd.mom_vals) ∧
      (k ≠ 3 → ((V1.gas_sensor_parse_frame (some f) (some sd) wf st).slow.getD sd).gen_vals =
        sd.gen_vals) ∧
      (k ≠ 4 → ((V1.gas_sensor_parse_frame (some f) (some sd) wf st).slow.getD sd).sensor_regs =
        sd.sensor_regs) ∧
      (k ≠ 5 → ((V1.gas_sensor_parse_frame (some f) (some sd) wf st).slow.getD sd).config_data =
        sd.config_data) ∧
      (k ≠ 6 → ((V1.gas_sensor_parse_frame (some f) (some sd) wf st).slow.getD sd).service_data =
        sd.service_data)) ∧
    ((V2.gas_sensor_parse_frame (some f) (some sd) wf st).res = GAS_SENSOR_OK ∧
      ((V2.gas_sensor_parse_frame (some f) (some sd) wf st).slow.getD sd).last_frame_id = k ∧
      (k ≠ 0 → ((V2.gas_sensor_parse_frame (some f) (some sd) wf st).slow.getD sd).insp_vals =
        sd.insp_vals) ∧
      (k ≠ 1 → ((V2.gas_sensor_parse_frame (some f) (some sd) wf st).slow.getD sd).exp_vals =
        sd.exp_vals) ∧
      (k ≠ 2 → ((V2.gas_sensor_parse_frame (some f) (some sd) wf st).slow.getD sd).mom_vals =
        sd.mom_vals) ∧
      (k ≠ 3 → ((V2.gas_sensor_parse_frame (some f) (some sd) wf st).slow.getD sd).gen_vals =
        sd.gen_vals) ∧
      (k ≠ 4 → ((V2.gas_sensor_parse_frame (some f) (some sd) wf st).slow.getD sd).sensor_regs =
        sd.sensor_regs) ∧
      (k ≠ 5 → ((V2.gas_sensor_parse_frame (some f) (some sd) wf st).slow.getD sd).config_data =
        sd.config_data) ∧
      (k ≠ 6 → ((V2.gas_sensor_parse_frame (some f) (some sd) wf st).slow.getD sd).service_data =
        sd.service_data)) := by
  interval_cases k <;>
    simp_all [V1.gas_sensor_parse_frame, V2.gas_sensor_parse_frame,
      V1.gas_sensor_verify_checksum, V2.gas_sensor_verify_checksum, GAS_SENSOR_FRAME_ID_MAX]

/-- Claim C3 witness: the non-interference statement applied to
`sync_frame` (frame id 0) and the zeroed aggregate; the success code,
the `last_frame_id` update and the preservation of the expiration slot
are extracted. -/
theorem C3_merge_non_interference_witness :
    ((V1.gas_sensor_parse_frame (some sync_frame) (some V1.zero_slow_data) none none).res =
      GAS_SENSOR_OK ∧
    ((V1.gas_sensor_parse_frame (some sync_frame) (some V1.zero_slow_data)
      none none).slow.getD V1.zero_slow_data).last_frame_id = 0) ∧
    ((V2.gas_sensor_parse_frame (some sync_frame) (some V1.zero_slow_data) none none).res =
      GAS_SENSOR_OK ∧
    ((V2.gas_sensor_parse_frame (some sync_frame) (some V1.zero_slow_data)
      none none).slow.getD V1.zero_slow_data).exp_vals = V1.zero_slow_data.exp_vals) := by
  have h := C3_merge_non_interference sync_frame 0 V1.zero_slow_data none none
    (by decide) (by decide) (by decide) (by decide) (by decide)
  exact ⟨⟨h.1.1, h.1.2.1⟩, ⟨h.2.1, h.2.2.2.2.1 (by decide)⟩⟩

end GasSensor
